import Mathlib

/-!
Verification of the MediaScreen watermark upload server
(src/image-upload/server.py), shallowly embedded in Lean 4.

The server is an HTTP handler with two routes.  `GET /status` returns a
fixed JSON document; `POST /upload` validates a multipart upload and
persists it to `watermark.png`, then writes `upload_complete.flag`.
The embedding models:
  - JSON responses (`Response`, `send_json_response`, `jsonDumps`);
  - the filesystem state touched by the handler (`FS`);
  - the ordered trace of filesystem writes performed by one request
    (`Event`), so that temporal ordering of the two writes is provable;
  - the fallible external steps (multipart parsing by `cgi.FieldStorage`,
    reading the file payload, the two file writes) as `Except String`
    values supplied by the environment (`UploadEnv`), matching Python
    exceptions carrying a message;
  - the port-probing loop `find_available_port`.
-/

set_option maxRecDepth 8192

namespace MediaScreen

/-- Implements Python `str.lower` on the ASCII range (the range exercised
by this server: filenames and fixed literals), character by character. -/
def pyLower (s : String) : String := String.mk (s.data.map Char.toLower)

/-- Implements Python `str.endswith`: `pyEndsWith s post` is true when
`post` is a suffix of `s`. -/
def pyEndsWith (s post : String) : Bool := List.isSuffixOf post.data s.data

/-- Implements Python `str.startswith`: `pyStartsWith s pre` is true when
`pre` is a prefix of `s`. -/
def pyStartsWith (s pre : String) : Bool := List.isPrefixOf pre.data s.data

/-- JSON values appearing in the responses of this server: only strings
and numbers occur in `server.py`. -/
inductive JVal where
  | str (s : String)
  | nat (n : Nat)
  deriving DecidableEq

/-- Serialization of one JSON value, as `json.dumps` renders the values
this server produces (plain strings without escapes, decimal numbers). -/
def JVal.dump : JVal → String
  | .str s => "\"" ++ s ++ "\""
  | .nat n => toString n

/-- Serialization of a JSON object with the separators `json.dumps` uses
by default: `", "` between members and `": "` after each key. -/
def jsonDumps (obj : List (String × JVal)) : String :=
  "\x7b" ++ String.intercalate ", "
    (obj.map (fun kv => "\"" ++ kv.1 ++ "\": " ++ kv.2.dump)) ++ "\x7d"

/-- An HTTP response as produced by `send_json_response`: status code,
content type header, and the JSON object of the body. -/
structure Response where
  status : Nat
  contentType : String
  body : List (String × JVal)
  deriving DecidableEq

/-- Embeds `UploadHandler.send_json_response(data, status)`: it sends the
given status, a `Content-type: application/json` header, and the JSON
encoding of `data` as body. -/
def send_json_response (data : List (String × JVal)) (status : Nat) : Response :=
  { status := status, contentType := "application/json", body := data }

/-- Outcome of a `GET` request: a static file served with a content type,
a JSON response, or an HTTP error page via `send_error`. -/
inductive GetResponse where
  | serveFile (filename : String) (contentType : String)
  | json (r : Response)
  | httpError (code : Nat) (msg : String)
  deriving DecidableEq

/-- Embeds `UploadHandler.do_GET`: `/` and `/index.html` serve the static
page, `/status` answers with JSON, everything else is a 404. -/
def do_GET (path : String) : GetResponse :=
  if path = "/" ∨ path = "/index.html" then
    .serveFile "index.html" "text/html"
  else if path = "/status" then
    .json (send_json_response [("status", .str "ready")] 200)
  else
    .httpError 404 "File not found"

/-- The loop body of `find_available_port`: try `fuel` consecutive ports
starting at `port`, returning the first one for which the bind succeeds
(`avail`), or `none` when all attempts fail.  `avail` abstracts the
success of `socket.bind` on a given port. -/
def findPortLoop (avail : Nat → Bool) (port : Nat) : Nat → Option Nat
  | 0 => none
  | fuel + 1 => if avail port then some port else findPortLoop avail (port + 1) fuel

/-- Embeds `find_available_port(start_port=8080, max_attempts=100)`:
iterate over `range(start_port, start_port + max_attempts)`, return the
first port that binds, and raise `RuntimeError` (modelled as `.error`
with the exact message) when the range is exhausted. -/
def find_available_port (avail : Nat → Bool) (start_port : Nat) (max_attempts : Nat) :
    Except String Nat :=
  match findPortLoop avail start_port max_attempts with
  | some p => .ok p
  | none => .error ("Could not find available port in range " ++ toString start_port
      ++ "-" ++ toString (start_port + max_attempts))

/-- The filesystem state touched by the upload handler: the contents of
`watermark.png` (a byte sequence) and of `upload_complete.flag`
(a text file), each `none` when the file does not exist. -/
structure FS where
  watermark : Option (List Nat)
  flag : Option String
  deriving DecidableEq

/-- One filesystem write performed by the handler, recorded in order of
occurrence so that the relative ordering of the watermark write and the
flag write is observable. -/
inductive Event where
  | writeWatermark (data : List Nat)
  | writeFlag (content : String)
  deriving DecidableEq

/-- The part of the parsed `cgi.FieldStorage` form the handler inspects:
whether a field named `file` is present, and that field's filename.
Python treats a missing or empty filename as falsy; both are modelled by
the empty string. -/
structure Form where
  hasFile : Bool
  filename : String
  deriving DecidableEq

/-- The environment of one `POST /upload` request: the `Content-Type`
header (`none` when absent), and the outcomes of the four fallible
external steps of `handle_upload`.  Each `Except` is `.error msg` when
the corresponding Python operation raises an exception with message
`msg`: constructing `cgi.FieldStorage`, `fileitem.file.read()`, writing
`watermark.png`, and writing `upload_complete.flag`. -/
structure UploadEnv where
  contentType : Option String
  parseResult : Except String Form
  readResult : Except String (List Nat)
  writeWatermarkResult : Except String Unit
  writeFlagResult : Except String Unit

/-- The full observable outcome of one request: the HTTP response, the
filesystem after the request, the ordered trace of filesystem writes,
and the lines printed to the server log. -/
structure HandlerResult where
  response : Response
  fs : FS
  events : List Event
  logs : List String
  deriving DecidableEq

/-- The extension allow-list of `handle_upload`, in source order. -/
def allowed_extensions : List String := [".png", ".jpg", ".jpeg", ".gif", ".bmp"]

/-- The body of the `try` block of `UploadHandler.handle_upload`,
step by step from the source.  `.ok` is a normal return (a 400 rejection
or the 200 success); `.error (msg, fs, events)` is an exception escaping
the `try` block, carrying the filesystem state and write trace at the
point where it was raised.  A failed file write is modelled as leaving
the file untouched. -/
def tryUpload (env : UploadEnv) (fs : FS) :
    Except (String × FS × List Event) HandlerResult :=
  let content_type := env.contentType.getD ""
  if ¬ pyStartsWith content_type "multipart/form-data" then
    .ok ⟨send_json_response [("error", .str "Invalid content type")] 400, fs, [], []⟩
  else
    match env.parseResult with
    | .error e => .error (e, fs, [])
    | .ok form =>
      if ¬ form.hasFile then
        .ok ⟨send_json_response [("error", .str "No file uploaded")] 400, fs, [], []⟩
      else if form.filename = "" then
        .ok ⟨send_json_response [("error", .str "No file selected")] 400, fs, [], []⟩
      else
        let filename := pyLower form.filename
        if ¬ allowed_extensions.any (fun ext => pyEndsWith filename ext) then
          .ok ⟨send_json_response
            [("error", .str ("Invalid file type. Allowed: "
              ++ String.intercalate ", " allowed_extensions))] 400, fs, [], []⟩
        else
          match env.readResult with
          | .error e => .error (e, fs, [])
          | .ok file_data =>
            if file_data.length > 10 * 1024 * 1024 then
              .ok ⟨send_json_response
                [("error", .str "File too large (max 10MB)")] 400, fs, [], []⟩
            else
              match env.writeWatermarkResult with
              | .error e => .error (e, fs, [])
              | .ok _ =>
                let fs1 : FS := { fs with watermark := some file_data }
                let tr1 : List Event := [Event.writeWatermark file_data]
                match env.writeFlagResult with
                | .error e => .error (e, fs1, tr1)
                | .ok _ =>
                  let fs2 : FS := { fs1 with flag := some "success" }
                  let tr2 : List Event := tr1 ++ [Event.writeFlag "success"]
                  .ok ⟨send_json_response
                    [("status", .str "success"),
                     ("message", .str "File uploaded successfully"),
                     ("filename", .str "watermark.png"),
                     ("size", .nat file_data.length)] 200,
                    fs2, tr2,
                    ["Upload completed: " ++ toString file_data.length
                      ++ " bytes saved as watermark.png"]⟩

/-- Embeds `UploadHandler.handle_upload`: the `try` body above wrapped in
the `except Exception` clause, which logs `Upload error: <e>` and answers
500 with `Server error: <e>`.  The function is total: no exception
propagates out of the handler, so the server loop continues. -/
def handle_upload (env : UploadEnv) (fs : FS) : HandlerResult :=
  match tryUpload env fs with
  | .ok r => r
  | .error (e, fsE, tr) =>
    ⟨send_json_response [("error", .str ("Server error: " ++ e))] 500,
      fsE, tr, ["Upload error: " ++ e]⟩

/-! Helper lemmas about the port-probing loop. -/

/-- When every port probed in the window fails to bind, the loop finds
nothing. -/
theorem findPortLoop_none (avail : Nat → Bool) :
    ∀ fuel port, (∀ i, i < fuel → avail (port + i) = false) →
      findPortLoop avail port fuel = none
  | 0, _, _ => rfl
  | fuel + 1, port, h => by
    have h0 : avail port = false := by simpa using h 0 (Nat.succ_pos _)
    simp only [findPortLoop, h0, Bool.false_eq_true, if_false]
    exact findPortLoop_none avail fuel (port + 1) (fun i hi => by
      have hp : port + 1 + i = port + (i + 1) := by omega
      rw [hp]
      exact h (i + 1) (by omega))

/-- The loop returns the first port in its window that binds. -/
theorem findPortLoop_some (avail : Nat → Bool) :
    ∀ fuel port p, port ≤ p → p < port + fuel → avail p = true →
      (∀ q, port ≤ q → q < p → avail q = false) →
      findPortLoop avail port fuel = some p
  | 0, port, p, hle, hlt, _, _ => by omega
  | fuel + 1, port, p, hle, hlt, hp, hmin => by
    by_cases hb : avail port = true
    · have : port = p := by
        by_contra hne
        have : port < p := by omega
        have := hmin port le_rfl this
        simp [hb] at this
      subst this
      simp [findPortLoop, hb]
    · have hpp : port ≠ p := fun he => hb (he ▸ hp)
      simp only [findPortLoop, hb, if_false]
      exact findPortLoop_some avail fuel (port + 1) p (by omega) (by omega) hp
        (fun q h1 h2 => hmin q (by omega) h2)

/-- C7: with no port argument the server probes 100 consecutive ports
from 8080 by attempting binds, uses the first that succeeds (so 8081
when 8080 is occupied), and raises a fatal startup error when every
attempt fails. -/
theorem find_available_port_spec (avail : Nat → Bool) :
    ((∀ q, q < 8180 → 8080 ≤ q → avail q = false) →
      find_available_port avail 8080 100 =
        .error "Could not find available port in range 8080-8180") ∧
    (∀ p, 8080 ≤ p → p < 8180 → avail p = true →
      (∀ q, 8080 ≤ q → q < p → avail q = false) →
      find_available_port avail 8080 100 = .ok p) := by
  constructor
  · intro h
    have hnone : findPortLoop avail 8080 100 = none :=
      findPortLoop_none avail 100 8080 (fun i hi => h (8080 + i) (by omega) (by omega))
    simp only [find_available_port, hnone]
    exact congrArg Except.error (by decide)
  · intro p h1 h2 h3 h4
    have hsome : findPortLoop avail 8080 100 = some p :=
      findPortLoop_some avail 100 8080 p h1 (by omega) h3 (fun q hq1 hq2 => h4 q hq1 hq2)
    simp [find_available_port, hsome]

/-- Witness for C7: a concrete world where only port 8081 is free makes
the probe return 8081, and a world with no free port makes startup fail
with the fatal message. -/
theorem find_available_port_spec_witness :
    find_available_port (fun p => p == 8081) 8080 100 = .ok 8081 ∧
    find_available_port (fun _ => false) 8080 100 =
      .error "Could not find available port in range 8080-8180" := by
  constructor
  · exact (find_available_port_spec (fun p => p == 8081)).2 8081 (by omega) (by omega)
      (by decide)
      (fun q hq1 hq2 => by
        have hq : q = 8080 := by omega
        subst hq
        decide)
  · exact (find_available_port_spec (fun _ => false)).1 (fun q _ _ => rfl)

/-- C6: a GET request to `/status` answers 200 with content type
`application/json` and a body that serializes exactly to
`\x7b"status": "ready"\x7d`. -/
theorem do_GET_status_spec :
    do_GET "/status" = .json (Response.mk 200 "application/json"
      [("status", JVal.str "ready")]) ∧
    jsonDumps [("status", JVal.str "ready")] = "\x7b\"status\": \"ready\"\x7d" := by
  decide

/-! Helper lemmas about the upload handler. -/

/-- A fully valid upload runs the whole success path: every condition is
settled by the hypotheses and the handler result is computed exactly.
Shared by the success-path claims. -/
theorem handle_upload_valid_eq (env : UploadEnv) (fs : FS) (fn : String) (data : List Nat)
    (hct : pyStartsWith (env.contentType.getD "") "multipart/form-data" = true)
    (hpr : env.parseResult = .ok ⟨true, fn⟩)
    (hfn : fn ≠ "")
    (hext : allowed_extensions.any (fun ext => pyEndsWith (pyLower fn) ext) = true)
    (hrd : env.readResult = .ok data)
    (hlen : data.length ≤ 10485760)
    (hw : env.writeWatermarkResult = .ok ())
    (hfl : env.writeFlagResult = .ok ()) :
    handle_upload env fs =
      ⟨send_json_response
        [("status", .str "success"), ("message", .str "File uploaded successfully"),
         ("filename", .str "watermark.png"), ("size", .nat data.length)] 200,
       ⟨some data, some "success"⟩,
       [Event.writeWatermark data, Event.writeFlag "success"],
       ["Upload completed: " ++ toString data.length ++ " bytes saved as watermark.png"]⟩ := by
  obtain ⟨ct, pr, rr, ww, wf⟩ := env
  simp only at hct hpr hrd hw hfl
  subst hpr hrd hw hfl
  have hlen2 : ¬ data.length > 10 * 1024 * 1024 := by omega
  simp [handle_upload, tryUpload, hct, hfn, hext, hlen2]

/-- Exhaustive outcome analysis of `handle_upload`: every run is a 400
rejection touching nothing, a 500 before any write, a 500 after only the
watermark write, or the full success path with both writes in order. -/
theorem handle_upload_cases (env : UploadEnv) (fs : FS) :
    (∃ msg, handle_upload env fs =
        ⟨send_json_response [("error", .str msg)] 400, fs, [], []⟩) ∨
    (∃ e, handle_upload env fs =
        ⟨send_json_response [("error", .str ("Server error: " ++ e))] 500, fs, [],
         ["Upload error: " ++ e]⟩) ∨
    (∃ e d, handle_upload env fs =
        ⟨send_json_response [("error", .str ("Server error: " ++ e))] 500,
         ⟨some d, fs.flag⟩, [Event.writeWatermark d], ["Upload error: " ++ e]⟩) ∨
    (∃ d, handle_upload env fs =
        ⟨send_json_response
          [("status", .str "success"), ("message", .str "File uploaded successfully"),
           ("filename", .str "watermark.png"), ("size", .nat d.length)] 200,
         ⟨some d, some "success"⟩,
         [Event.writeWatermark d, Event.writeFlag "success"],
         ["Upload completed: " ++ toString d.length
           ++ " bytes saved as watermark.png"]⟩) := by
  obtain ⟨ct, pr, rr, ww, wf⟩ := env
  by_cases hct : pyStartsWith (ct.getD "") "multipart/form-data" = true
  · cases pr with
    | error e =>
      exact .inr (.inl ⟨e, by simp [handle_upload, tryUpload, hct]⟩)
    | ok form =>
      obtain ⟨hasF, fn⟩ := form
      cases hasF with
      | false =>
        exact .inl ⟨"No file uploaded", by simp [handle_upload, tryUpload, hct]⟩
      | true =>
        by_cases hfn : fn = ""
        · exact .inl ⟨"No file selected", by simp [handle_upload, tryUpload, hct, hfn]⟩
        · by_cases hext : allowed_extensions.any (fun ext => pyEndsWith (pyLower fn) ext) = true
          · cases rr with
            | error e =>
              exact .inr (.inl ⟨e, by simp [handle_upload, tryUpload, hct, hfn, hext]⟩)
            | ok data =>
              by_cases hlen : data.length > 10 * 1024 * 1024
              · exact .inl ⟨"File too large (max 10MB)",
                  by simp [handle_upload, tryUpload, hct, hfn, hext, hlen]⟩
              · cases ww with
                | error e =>
                  exact .inr (.inl ⟨e,
                    by simp [handle_upload, tryUpload, hct, hfn, hext, hlen]⟩)
                | ok u =>
                  cases wf with
                  | error e =>
                    exact .inr (.inr (.inl ⟨e, data,
                      by simp [handle_upload, tryUpload, hct, hfn, hext, hlen]⟩))
                  | ok v =>
                    exact .inr (.inr (.inr ⟨data,
                      by simp [handle_upload, tryUpload, hct, hfn, hext, hlen]⟩))
          · exact .inl ⟨"Invalid file type. Allowed: "
              ++ String.intercalate ", " allowed_extensions,
              by simp [handle_upload, tryUpload, hct, hfn, hext]⟩
  · exact .inl ⟨"Invalid content type", by simp [handle_upload, tryUpload, hct]⟩

/-! Concrete fixtures used by the witnesses. -/

/-- An empty working directory: neither output file exists yet. -/
def emptyFS : FS := ⟨none, none⟩

/-- A fully valid upload request: multipart content type, a `file` field
named `photo.PNG` (mixed case, allowed extension), a 3-byte payload, and
no I/O fault. -/
def sampleValidEnv : UploadEnv :=
  ⟨some "multipart/form-data; boundary=x", .ok ⟨true, "photo.PNG"⟩, .ok [1, 2, 3],
   .ok (), .ok ()⟩

/-- A second valid upload with different bytes, for the overwrite claim. -/
def secondValidEnv : UploadEnv :=
  ⟨some "multipart/form-data; boundary=y", .ok ⟨true, "new.jpg"⟩, .ok [9],
   .ok (), .ok ()⟩

/-- A request with no `Content-Type` header at all. -/
def badContentTypeEnv : UploadEnv :=
  ⟨none, .error "parser never invoked", .error "never read", .ok (), .ok ()⟩

/-- A request whose multipart parsing raises an exception. -/
def parseFaultEnv : UploadEnv :=
  ⟨some "multipart/form-data; boundary=x", .error "boom", .ok [], .ok (), .ok ()⟩

/-- C2: a valid upload of `N` bytes (`N` within the 10MB limit) answers
200 with status `success`, message `File uploaded successfully`, filename
`watermark.png` and `size = N`, and leaves exactly the uploaded bytes in
`watermark.png` (with the flag written after it). -/
theorem valid_upload_spec (env : UploadEnv) (fs : FS) (fn : String) (data : List Nat)
    (hct : pyStartsWith (env.contentType.getD "") "multipart/form-data" = true)
    (hpr : env.parseResult = .ok ⟨true, fn⟩)
    (hfn : fn ≠ "")
    (hext : allowed_extensions.any (fun ext => pyEndsWith (pyLower fn) ext) = true)
    (hrd : env.readResult = .ok data)
    (hlen : data.length ≤ 10485760)
    (hw : env.writeWatermarkResult = .ok ())
    (hfl : env.writeFlagResult = .ok ()) :
    handle_upload env fs =
      ⟨send_json_response
        [("status", .str "success"), ("message", .str "File uploaded successfully"),
         ("filename", .str "watermark.png"), ("size", .nat data.length)] 200,
       ⟨some data, some "success"⟩,
       [Event.writeWatermark data, Event.writeFlag "success"],
       ["Upload completed: " ++ toString data.length ++ " bytes saved as watermark.png"]⟩ :=
  handle_upload_valid_eq env fs fn data hct hpr hfn hext hrd hlen hw hfl

/-- Witness for C2 at a concrete 3-byte upload named `photo.PNG`. -/
theorem valid_upload_spec_witness :
    handle_upload sampleValidEnv emptyFS =
      ⟨send_json_response
        [("status", .str "success"), ("message", .str "File uploaded successfully"),
         ("filename", .str "watermark.png"), ("size", .nat 3)] 200,
       ⟨some [1, 2, 3], some "success"⟩,
       [Event.writeWatermark [1, 2, 3], Event.writeFlag "success"],
       ["Upload completed: 3 bytes saved as watermark.png"]⟩ :=
  valid_upload_spec sampleValidEnv emptyFS "photo.PNG" [1, 2, 3]
    (by decide) rfl (by decide) (by decide) rfl (by decide) rfl rfl

/-- C1: whenever the flag write appears in the write trace of a request,
the watermark write of that same request appears strictly before it. -/
theorem flag_implies_watermark_before (env : UploadEnv) (fs : FS) (i : Nat) (c : String)
    (h : (handle_upload env fs).events.get? i = some (Event.writeFlag c)) :
    ∃ j d, j < i ∧
      (handle_upload env fs).events.get? j = some (Event.writeWatermark d) := by
  rcases handle_upload_cases env fs with ⟨msg, hh⟩ | ⟨e, hh⟩ | ⟨e, d, hh⟩ | ⟨d, hh⟩ <;>
    rw [hh] at h ⊢
  · simp at h
  · simp at h
  · match i, h with
    | 0, h => simp at h
    | n + 1, h => simp at h
  · match i, h with
    | 0, h => simp at h
    | 1, h => exact ⟨0, d, by omega, rfl⟩
    | n + 2, h => simp at h

/-- Witness for C1: in a concrete successful upload the flag write is at
index 1 of the trace and a watermark write precedes it. -/
theorem flag_implies_watermark_before_witness :
    (handle_upload sampleValidEnv emptyFS).events.get? 1 =
      some (Event.writeFlag "success") ∧
    (∃ j d, j < 1 ∧ (handle_upload sampleValidEnv emptyFS).events.get? j =
      some (Event.writeWatermark d)) :=
  ⟨by decide, flag_implies_watermark_before sampleValidEnv emptyFS 1 "success" (by decide)⟩

/-- C3: an upload whose payload exceeds 10,485,760 bytes (checked only
after the whole payload was read) answers 400 `File too large (max 10MB)`
and performs no filesystem write, leaving `watermark.png` unchanged. -/
theorem oversized_upload_spec (env : UploadEnv) (fs : FS) (fn : String) (data : List Nat)
    (hct : pyStartsWith (env.contentType.getD "") "multipart/form-data" = true)
    (hpr : env.parseResult = .ok ⟨true, fn⟩)
    (hfn : fn ≠ "")
    (hext : allowed_extensions.any (fun ext => pyEndsWith (pyLower fn) ext) = true)
    (hrd : env.readResult = .ok data)
    (hlen : data.length > 10485760) :
    handle_upload env fs =
      ⟨send_json_response [("error", .str "File too large (max 10MB)")] 400,
       fs, [], []⟩ := by
  obtain ⟨ct, pr, rr, ww, wf⟩ := env
  simp only at hct hpr hrd
  subst hpr hrd
  have hlen2 : data.length > 10 * 1024 * 1024 := by omega
  simp [handle_upload, tryUpload, hct, hfn, hext, hlen2]

/-- An upload of 10,485,761 zero bytes named `big.png`: one byte over the
limit. -/
def oversizedEnv : UploadEnv :=
  ⟨some "multipart/form-data", .ok ⟨true, "big.png"⟩,
   .ok (List.replicate 10485761 (0 : Nat)), .ok (), .ok ()⟩

/-- Witness for C3 at a 10,485,761-byte payload named `big.png`. -/
theorem oversized_upload_spec_witness :
    (List.replicate 10485761 (0 : Nat)).length > 10485760 ∧
    handle_upload oversizedEnv emptyFS =
      ⟨send_json_response [("error", .str "File too large (max 10MB)")] 400,
       emptyFS, [], []⟩ :=
  ⟨by rw [List.length_replicate]; omega,
   oversized_upload_spec oversizedEnv emptyFS "big.png" (List.replicate 10485761 0)
    (by decide) rfl (by decide) (by decide) rfl
    (by rw [List.length_replicate]; omega)⟩

/-- C4: when the `Content-Type` header is absent (defaulted to the empty
string) or does not start with `multipart/form-data`, the handler answers
400 `Invalid content type` and returns before any parsing or write: the
result does not depend on the parse, read or write outcomes, the
filesystem is unchanged, and the write trace is empty. -/
theorem invalid_content_type_spec (env : UploadEnv) (fs : FS)
    (hct : pyStartsWith (env.contentType.getD "") "multipart/form-data" = false) :
    handle_upload env fs =
      ⟨send_json_response [("error", .str "Invalid content type")] 400, fs, [], []⟩ := by
  obtain ⟨ct, pr, rr, ww, wf⟩ := env
  simp only at hct
  simp [handle_upload, tryUpload, hct]

/-- Witness for C4 at a request with no `Content-Type` header, whose
parser would raise if it were ever invoked. -/
theorem invalid_content_type_spec_witness :
    handle_upload badContentTypeEnv emptyFS =
      ⟨send_json_response [("error", .str "Invalid content type")] 400,
       emptyFS, [], []⟩ :=
  invalid_content_type_spec badContentTypeEnv emptyFS (by decide)

/-- C5: an upload whose lowercased filename matches no allowed extension
answers 400 with the message listing the allow-set, and neither
`watermark.png` nor `upload_complete.flag` is touched. -/
theorem invalid_extension_spec (env : UploadEnv) (fs : FS) (fn : String)
    (hct : pyStartsWith (env.contentType.getD "") "multipart/form-data" = true)
    (hpr : env.parseResult = .ok ⟨true, fn⟩)
    (hfn : fn ≠ "")
    (hext : allowed_extensions.any (fun ext => pyEndsWith (pyLower fn) ext) = false) :
    handle_upload env fs =
      ⟨send_json_response
        [("error", .str "Invalid file type. Allowed: .png, .jpg, .jpeg, .gif, .bmp")] 400,
       fs, [], []⟩ := by
  obtain ⟨ct, pr, rr, ww, wf⟩ := env
  simp only at hct hpr
  subst hpr
  have hmsg : "Invalid file type. Allowed: " ++ String.intercalate ", " allowed_extensions
      = "Invalid file type. Allowed: .png, .jpg, .jpeg, .gif, .bmp" := by decide
  simp [handle_upload, tryUpload, hct, hfn, hext, hmsg]

/-- Witness for C5 at an upload named `notes.txt`. -/
theorem invalid_extension_spec_witness :
    handle_upload
      ⟨some "multipart/form-data", .ok ⟨true, "notes.txt"⟩, .ok [1], .ok (), .ok ()⟩
      emptyFS =
      ⟨send_json_response
        [("error", .str "Invalid file type. Allowed: .png, .jpg, .jpeg, .gif, .bmp")] 400,
       emptyFS, [], []⟩ :=
  invalid_extension_spec _ emptyFS "notes.txt" (by decide) rfl (by decide) (by decide)

/-- C8: after two consecutive valid uploads, `watermark.png` holds exactly
the bytes of the second upload: the fixed destination is overwritten, with
no accumulation of the first upload's bytes. -/
theorem repeated_upload_overwrites (env1 env2 : UploadEnv) (fs : FS)
    (fn1 fn2 : String) (data1 data2 : List Nat)
    (hct1 : pyStartsWith (env1.contentType.getD "") "multipart/form-data" = true)
    (hpr1 : env1.parseResult = .ok ⟨true, fn1⟩)
    (hfn1 : fn1 ≠ "")
    (hext1 : allowed_extensions.any (fun ext => pyEndsWith (pyLower fn1) ext) = true)
    (hrd1 : env1.readResult = .ok data1)
    (hlen1 : data1.length ≤ 10485760)
    (hw1 : env1.writeWatermarkResult = .ok ())
    (hfl1 : env1.writeFlagResult = .ok ())
    (hct2 : pyStartsWith (env2.contentType.getD "") "multipart/form-data" = true)
    (hpr2 : env2.parseResult = .ok ⟨true, fn2⟩)
    (hfn2 : fn2 ≠ "")
    (hext2 : allowed_extensions.any (fun ext => pyEndsWith (pyLower fn2) ext) = true)
    (hrd2 : env2.readResult = .ok data2)
    (hlen2 : data2.length ≤ 10485760)
    (hw2 : env2.writeWatermarkResult = .ok ())
    (hfl2 : env2.writeFlagResult = .ok ()) :
    (handle_upload env2 (handle_upload env1 fs).fs).fs.watermark = some data2 ∧
    (handle_upload env2 (handle_upload env1 fs).fs).fs.flag = some "success" := by
  have e1 := handle_upload_valid_eq env1 fs fn1 data1
    hct1 hpr1 hfn1 hext1 hrd1 hlen1 hw1 hfl1
  have e2 := handle_upload_valid_eq env2 ⟨some data1, some "success"⟩ fn2 data2
    hct2 hpr2 hfn2 hext2 hrd2 hlen2 hw2 hfl2
  simp [e1, e2]

/-- Witness for C8: uploading `[1, 2, 3]` then `[9]` leaves exactly `[9]`
in `watermark.png`. -/
theorem repeated_upload_overwrites_witness :
    (handle_upload secondValidEnv
      (handle_upload sampleValidEnv emptyFS).fs).fs.watermark = some [9] ∧
    (handle_upload secondValidEnv
      (handle_upload sampleValidEnv emptyFS).fs).fs.flag = some "success" :=
  repeated_upload_overwrites sampleValidEnv secondValidEnv emptyFS
    "photo.PNG" "new.jpg" [1, 2, 3] [9]
    (by decide) rfl (by decide) (by decide) rfl (by decide) rfl rfl
    (by decide) rfl (by decide) (by decide) rfl (by decide) rfl rfl

/-- C9: any exception escaping the try-body (a failure that is not one of
the explicit 400 rejections) is caught: the handler logs
`Upload error: <message>` and returns a 500 response whose body is
`Server error: <message>`; being a total function, the handler always
returns a response, so the exception does not propagate to the server
loop. -/
theorem server_error_spec (env : UploadEnv) (fs : FS) (e : String)
    (fsE : FS) (tr : List Event)
    (h : tryUpload env fs = .error (e, fsE, tr)) :
    handle_upload env fs =
      ⟨send_json_response [("error", .str ("Server error: " ++ e))] 500, fsE, tr,
       ["Upload error: " ++ e]⟩ := by
  simp [handle_upload, h]

/-- Witness for C9 at a request whose multipart parsing raises `boom`. -/
theorem server_error_spec_witness :
    handle_upload parseFaultEnv emptyFS =
      ⟨send_json_response [("error", .str "Server error: boom")] 500, emptyFS, [],
       ["Upload error: boom"]⟩ :=
  server_error_spec parseFaultEnv emptyFS "boom" emptyFS [] rfl

/-- C10: every 400 rejection of the upload handler leaves the filesystem
exactly as it was and performs no write at all: all validation happens
before the first write is attempted. -/
theorem rejection_no_write_spec (env : UploadEnv) (fs : FS)
    (h : (handle_upload env fs).response.status = 400) :
    (handle_upload env fs).fs = fs ∧ (handle_upload env fs).events = [] := by
  rcases handle_upload_cases env fs with ⟨msg, hh⟩ | ⟨e, hh⟩ | ⟨e, d, hh⟩ | ⟨d, hh⟩ <;>
    rw [hh] at h ⊢ <;> simp [send_json_response] at h ⊢

/-- Witness for C10 at the missing-content-type rejection. -/
theorem rejection_no_write_spec_witness :
    (handle_upload badContentTypeEnv emptyFS).response.status = 400 ∧
    ((handle_upload badContentTypeEnv emptyFS).fs = emptyFS ∧
     (handle_upload badContentTypeEnv emptyFS).events = []) :=
  ⟨by decide, rejection_no_write_spec badContentTypeEnv emptyFS (by decide)⟩

end MediaScreen
